import Mathlib

/-!
Shallow embedding of `src/main.py` (Codegen SDK Wrapper).

The program is a single HTTP endpoint: a bearer-token credential gate
(`verify_api_key`), submission of a prompt to an external agent
(`agent.run`, modelled as an `Except String Task` value), a polling loop
that sleeps 3 simulated seconds and then refreshes the task while its
status stays "pending" and elapsed time has not exceeded 120 seconds,
and a mapper from the final task state to a `CodegenResponse`.

Modelling conventions:
- Remote calls that may raise are `Except String _`; the `String` is the
  exception text interpolated into the 500 detail.
- `refresh` mutates the task in place in Python; here the sequence of
  task states produced by successive refresh calls is an oracle
  `refreshes : Nat → Except String Task` (the n-th refresh call yields
  `refreshes n`).
- Simulated time: only `asyncio.sleep(polling_interval_seconds)` advances
  the clock, by exactly 3 seconds, as the spec's "simulated seconds"
  prescribe; after n sleeps the elapsed time `time.time() - start_time`
  is `polling_interval_seconds * n`.
- Python attribute access: `task.result` may be `None`
  (`str(None) = "None"`, see `pyStr`); `getattr(task, 'id', 'N/A')` and
  `getattr(task, 'error_message', 'Codegen task failed.')` are
  `Option.getD` on optional fields.
- The polling loop is instrumented: `pollLoopT` also returns the list of
  effect events (`sleep`/`refreshCall`) in the exact order the Python
  code performs them, so temporal claims about call cadence are theorems
  about the trace.
-/

namespace CodegenAPI

/-- `timeout_seconds = 120` from `src/main.py` line 99. -/
def timeout_seconds : Nat := 120

/-- `polling_interval_seconds = 3` from `src/main.py` line 100. -/
def polling_interval_seconds : Nat := 3

/-- The remote SDK `Task` as observed by the handler: `status` (string),
`result` (may be `None`), and the attributes `id` / `error_message`
which the handler reads via `getattr` with a default (absence = `none`). -/
structure Task where
  status : String
  result : Option String := none
  error_message : Option String := none
  id : Option String := none
  deriving Repr, DecidableEq

/-- `CodegenResponse` pydantic model (`src/main.py` lines 46-50):
required `status`, optional `result`, `error`, `task_id`. -/
structure CodegenResponse where
  status : String
  result : Option String := none
  error : Option String := none
  task_id : Option String := none
  deriving Repr, DecidableEq

/-- Python `str()` applied to an optional string: `str(None) = "None"`. -/
def pyStr : Option String → String
  | none => "None"
  | some s => s

/-- `str(getattr(task, 'id', 'N/A'))`. -/
def taskIdStr (t : Task) : String := t.id.getD "N/A"

/-- Observable effects of the polling loop, in program order:
`asyncio.sleep(secs)` and `task.refresh()` (recording the task status at
the moment of the call). -/
inductive Event where
  | sleep (secs : Nat)
  | refreshCall (statusBefore : String)
  deriving Repr, DecidableEq

/-- Boolean recogniser for refresh events, used to count refresh calls. -/
def Event.isRefresh : Event → Bool
  | .refreshCall _ => true
  | _ => false

/-- How the polling loop ends when no exception is raised: either the
timeout fired while the task was still pending (`timedOut`, the early
`return` at `src/main.py` line 108), or the loop was exited with a
non-pending task (`exited`). -/
inductive PollResult where
  | timedOut (t : Task)
  | exited (t : Task)
  deriving Repr, DecidableEq

/-- The task held when the loop ended. -/
def PollResult.task : PollResult → Task
  | .timedOut t => t
  | .exited t => t

/-- The polling loop of `run_codegen_agent` (`src/main.py` lines 102-118),
instrumented with its effect trace. `n` counts the refresh calls already
performed, so the simulated elapsed time at the loop head is
`polling_interval_seconds * n`. The loop body: check
`time.time() - start_time > timeout_seconds` (return timeout), sleep the
polling interval, call `refresh` (which may raise), and loop back to the
`pending` test (the `break` at line 118 and the `while` condition at line
105 coincide). -/
def pollLoopT (refreshes : Nat → Except String Task) (task : Task) (n : Nat) :
    List Event × Except String PollResult :=
  if h1 : task.status ≠ "pending" then
    ([], .ok (.exited task))
  else if h2 : polling_interval_seconds * n > timeout_seconds then
    ([], .ok (.timedOut task))
  else
    match refreshes n with
    | .error e =>
        ([.sleep polling_interval_seconds, .refreshCall task.status], .error e)
    | .ok t' =>
        let rest := pollLoopT refreshes t' (n + 1)
        (.sleep polling_interval_seconds :: .refreshCall task.status :: rest.1,
         rest.2)
termination_by timeout_seconds + polling_interval_seconds - polling_interval_seconds * n
decreasing_by
  simp only [timeout_seconds, polling_interval_seconds, Nat.not_lt] at h2 ⊢
  omega

/-- The polling loop's outcome, ignoring the instrumentation trace. -/
def pollLoop (refreshes : Nat → Except String Task) (task : Task) (n : Nat) :
    Except String PollResult :=
  (pollLoopT refreshes task n).2

/-- Result of one invocation of the endpoint handler: a 200 response with
a `CodegenResponse` body, a raised `HTTPException` with status code and
detail, or the (unreachable) fall-through where the Python function
returns `None`. -/
inductive HandlerResult where
  | ok (resp : CodegenResponse)
  | httpError (code : Nat) (detail : String)
  | invalidNone
  deriving Repr, DecidableEq

/-- `run_codegen_agent` (`src/main.py` lines 80-139) after the credential
gate: `submit` is the outcome of `agent.run(prompt)`; a raised exception
anywhere in the `try` block becomes a 500 `HTTPException` whose detail
interpolates the exception text (line 138). The branches after the loop
mirror lines 121-132: arbitrary non-terminal ("active") status returns
immediately with a descriptive `result`; `completed` returns
`str(task.result)`; `failed` returns
`getattr(task, 'error_message', 'Codegen task failed.')`. -/
def run_codegen_agent (submit : Except String Task)
    (refreshes : Nat → Except String Task) : HandlerResult :=
  match submit with
  | .error e => .httpError 500 ("An internal error occurred: " ++ e)
  | .ok task0 =>
    match pollLoop refreshes task0 0 with
    | .error e => .httpError 500 ("An internal error occurred: " ++ e)
    | .ok (.timedOut t) =>
        .ok { status := "timeout"
            , error := some ("Task timed out after " ++ toString timeout_seconds
                ++ " seconds.")
            , task_id := some (taskIdStr t) }
    | .ok (.exited t) =>
        if t.status ∉ (["pending", "completed", "failed"] : List String) then
          .ok { status := t.status
              , result := some ("Task ID: " ++ taskIdStr t ++ " is now active.")
              , task_id := some (taskIdStr t) }
        else if t.status = "completed" then
          .ok { status := t.status
              , result := some (pyStr t.result)
              , task_id := some (taskIdStr t) }
        else if t.status = "failed" then
          .ok { status := t.status
              , error := some (t.error_message.getD "Codegen task failed.")
              , task_id := some (taskIdStr t) }
        else
          .invalidNone

/-- `verify_api_key` (`src/main.py` lines 57-69): reject a scheme other
than `"Bearer"` with 403, then a credential other than the configured
secret with 401, else return the credential. -/
def verify_api_key (scheme credential app_api_key : String) :
    Except (Nat × String) String :=
  if scheme ≠ "Bearer" then
    .error (403, "Invalid authentication scheme")
  else if credential ≠ app_api_key then
    .error (401, "Invalid API Key")
  else
    .ok credential

/-- One `POST /run-agent` request: the credential gate runs as a FastAPI
dependency before the handler body, so a gate failure produces its
`HTTPException` without `submit` or any `refresh` being consulted. -/
def handle_request (scheme credential app_api_key : String)
    (submit : Except String Task)
    (refreshes : Nat → Except String Task) : HandlerResult :=
  match verify_api_key scheme credential app_api_key with
  | .error (code, detail) => .httpError code detail
  | .ok _ => run_codegen_agent submit refreshes

/-- One loop iteration's effect trace: sleep the polling interval, then
one refresh call made while the status is `"pending"`. -/
def pollBlock : List Event :=
  [.sleep polling_interval_seconds, .refreshCall "pending"]

/-- Sample task that is still pending. -/
def samplePending : Task := { status := "pending", id := some "7" }

/-- Sample completed task. -/
def sampleDone : Task :=
  { status := "completed", result := some "print(1)", id := some "42" }

/-- Sample failed task carrying an error message. -/
def sampleFailed : Task :=
  { status := "failed", error_message := some "boom", id := some "42" }

/-- Sample failed task with no `error_message` attribute and no `id`. -/
def sampleFailedBare : Task := { status := "failed" }

/-- Sample task in an arbitrary non-terminal ("active") state. -/
def sampleRunning : Task := { status := "running", id := some "42" }

/-- Refresh oracle whose every call yields the same task state. -/
def refreshesTo (t : Task) : Nat → Except String Task := fun _ => .ok t

/-- Refresh oracle whose every call raises. -/
def refreshesRaise (e : String) : Nat → Except String Task := fun _ => .error e

theorem pollLoopT_notPending (r : Nat → Except String Task) (t : Task) (n : Nat)
    (h : t.status ≠ "pending") :
    pollLoopT r t n = ([], .ok (.exited t)) := by
  rw [pollLoopT]
  simp [h]

theorem pollLoopT_timeout (r : Nat → Except String Task) (t : Task) (n : Nat)
    (h : t.status = "pending")
    (h2 : polling_interval_seconds * n > timeout_seconds) :
    pollLoopT r t n = ([], .ok (.timedOut t)) := by
  rw [pollLoopT]
  simp [h, h2]

theorem pollLoopT_step (r : Nat → Except String Task) (t t' : Task) (n : Nat)
    (h : t.status = "pending")
    (h2 : polling_interval_seconds * n ≤ timeout_seconds)
    (hr : r n = .ok t') :
    pollLoopT r t n =
      (.sleep polling_interval_seconds :: .refreshCall "pending" ::
        (pollLoopT r t' (n + 1)).1, (pollLoopT r t' (n + 1)).2) := by
  rw [pollLoopT]
  simp [h, Nat.not_lt.mpr h2, hr]

theorem pollLoopT_stepError (r : Nat → Except String Task) (t : Task) (n : Nat)
    (e : String) (h : t.status = "pending")
    (h2 : polling_interval_seconds * n ≤ timeout_seconds)
    (hr : r n = .error e) :
    pollLoopT r t n =
      ([.sleep polling_interval_seconds, .refreshCall "pending"], .error e) := by
  rw [pollLoopT]
  simp [h, Nat.not_lt.mpr h2, hr]

/-- If the task is pending after submit, the first `k` refresh calls keep
it pending, and refresh number `k` (made while the elapsed time
`polling_interval_seconds * (n + k)` is still within the timeout) yields a
non-pending task `t'`, then the loop performs exactly `k + 1`
sleep-then-refresh iterations and exits with `t'`. -/
theorem pollLoopT_pending_exit (r : Nat → Except String Task) :
    ∀ (k n : Nat) (t0 t' : Task), t0.status = "pending" →
    (∀ i, i < k → ∃ t, r (n + i) = .ok t ∧ t.status = "pending") →
    polling_interval_seconds * (n + k) ≤ timeout_seconds →
    r (n + k) = .ok t' → t'.status ≠ "pending" →
    pollLoopT r t0 n =
      (List.join (List.replicate (k + 1) pollBlock), .ok (.exited t')) := by
  intro k
  induction k with
  | zero =>
    intro n t0 t' h0 _ hb hk ht'
    rw [pollLoopT_step r t0 t' n h0 (by simpa using hb) (by simpa using hk)]
    rw [pollLoopT_notPending r t' (n + 1) ht']
    simp [pollBlock]
  | succ k ih =>
    intro n t0 t' h0 hpre hb hk ht'
    obtain ⟨t1, hr1, ht1⟩ := hpre 0 (Nat.succ_pos k)
    have hb0 : polling_interval_seconds * n ≤ timeout_seconds := by
      simp only [polling_interval_seconds, timeout_seconds] at hb ⊢
      omega
    rw [pollLoopT_step r t0 t1 n h0 hb0 (by simpa using hr1)]
    have hrest := ih (n + 1) t1 t' ht1
      (fun i hi => by
        have := hpre (i + 1) (by omega)
        simpa [Nat.add_assoc, Nat.add_comm 1 i] using this)
      (by simp only [polling_interval_seconds, timeout_seconds] at hb ⊢; omega)
      (by
        have : n + 1 + k = n + (k + 1) := by omega
        rw [this]; exact hk)
      ht'
    rw [hrest]
    simp [pollBlock, List.replicate_succ]

/-- Same pending prefix, but refresh number `k` raises: the exception
propagates after exactly `k + 1` sleep-then-refresh iterations. -/
theorem pollLoopT_pending_error (r : Nat → Except String Task) :
    ∀ (k n : Nat) (t0 : Task) (e : String), t0.status = "pending" →
    (∀ i, i < k → ∃ t, r (n + i) = .ok t ∧ t.status = "pending") →
    polling_interval_seconds * (n + k) ≤ timeout_seconds →
    r (n + k) = .error e →
    pollLoopT r t0 n =
      (List.join (List.replicate (k + 1) pollBlock), .error e) := by
  intro k
  induction k with
  | zero =>
    intro n t0 e h0 _ hb hk
    rw [pollLoopT_stepError r t0 n e h0 (by simpa using hb) (by simpa using hk)]
    simp [pollBlock]
  | succ k ih =>
    intro n t0 e h0 hpre hb hk
    obtain ⟨t1, hr1, ht1⟩ := hpre 0 (Nat.succ_pos k)
    have hb0 : polling_interval_seconds * n ≤ timeout_seconds := by
      simp only [polling_interval_seconds, timeout_seconds] at hb ⊢
      omega
    rw [pollLoopT_step r t0 t1 n h0 hb0 (by simpa using hr1)]
    have hrest := ih (n + 1) t1 e ht1
      (fun i hi => by
        have := hpre (i + 1) (by omega)
        simpa [Nat.add_assoc, Nat.add_comm 1 i] using this)
      (by simp only [polling_interval_seconds, timeout_seconds] at hb ⊢; omega)
      (by
        have : n + 1 + k = n + (k + 1) := by omega
        rw [this]; exact hk)
    rw [hrest]
    simp [pollBlock, List.replicate_succ]

/-- If every refresh made within the timeout window keeps the task
pending, the loop ends in the timeout branch with a still-pending task.
`m` is fuel bounding the remaining iterations. -/
theorem pollLoopT_pending_timeout_aux (r : Nat → Except String Task) :
    ∀ (m n : Nat) (t0 : Task), t0.status = "pending" →
    timeout_seconds + polling_interval_seconds ≤
      polling_interval_seconds * n + polling_interval_seconds * m →
    (∀ i, polling_interval_seconds * i ≤ timeout_seconds →
      ∃ t, r i = .ok t ∧ t.status = "pending") →
    ∃ t, (pollLoopT r t0 n).2 = .ok (.timedOut t) ∧ t.status = "pending" := by
  intro m
  induction m with
  | zero =>
    intro n t0 h0 hfuel _
    have hgt : polling_interval_seconds * n > timeout_seconds := by
      simp only [polling_interval_seconds, timeout_seconds] at hfuel ⊢
      omega
    exact ⟨t0, by rw [pollLoopT_timeout r t0 n h0 hgt], h0⟩
  | succ m ih =>
    intro n t0 h0 hfuel hpend
    by_cases hgt : polling_interval_seconds * n > timeout_seconds
    · exact ⟨t0, by rw [pollLoopT_timeout r t0 n h0 hgt], h0⟩
    · have hle : polling_interval_seconds * n ≤ timeout_seconds :=
        Nat.not_lt.mp hgt
      obtain ⟨t1, hr1, ht1⟩ := hpend n hle
      rw [pollLoopT_step r t0 t1 n h0 hle hr1]
      exact ih (n + 1) t1 ht1
        (by simp only [polling_interval_seconds, timeout_seconds] at hfuel ⊢
            omega)
        hpend

/-- Entry-point form of the timeout lemma: the task is pending after
submit and every refresh made while the elapsed time is within the
120-second timeout yields a pending task. -/
theorem pollLoopT_pending_forever (r : Nat → Except String Task) (t0 : Task)
    (h0 : t0.status = "pending")
    (hpend : ∀ i, polling_interval_seconds * i ≤ timeout_seconds →
      ∃ t, r i = .ok t ∧ t.status = "pending") :
    ∃ t, (pollLoopT r t0 0).2 = .ok (.timedOut t) ∧ t.status = "pending" :=
  pollLoopT_pending_timeout_aux r 41 0 t0 h0 (by decide) hpend

/-- Shape of every trace the loop can emit: some number `m ≤ f` of
sleep-then-refresh iterations, provided the fuel `f` covers the timeout
window. -/
theorem pollLoopT_trace_aux (r : Nat → Except String Task) :
    ∀ (f n : Nat) (t0 : Task),
    timeout_seconds + polling_interval_seconds ≤
      polling_interval_seconds * (n + f) →
    ∃ m, m ≤ f ∧
      (pollLoopT r t0 n).1 = List.join (List.replicate m pollBlock) := by
  intro f
  induction f with
  | zero =>
    intro n t0 hfuel
    by_cases h0 : t0.status = "pending"
    · have hgt : polling_interval_seconds * n > timeout_seconds := by
        simp only [polling_interval_seconds, timeout_seconds] at hfuel ⊢
        omega
      exact ⟨0, le_refl 0, by rw [pollLoopT_timeout r t0 n h0 hgt]; rfl⟩
    · exact ⟨0, le_refl 0, by rw [pollLoopT_notPending r t0 n h0]; rfl⟩
  | succ f ih =>
    intro n t0 hfuel
    by_cases h0 : t0.status = "pending"
    · by_cases hgt : polling_interval_seconds * n > timeout_seconds
      · exact ⟨0, Nat.zero_le _, by rw [pollLoopT_timeout r t0 n h0 hgt]; rfl⟩
      · have hle : polling_interval_seconds * n ≤ timeout_seconds :=
          Nat.not_lt.mp hgt
        match hr : r n with
        | .error e =>
          refine ⟨1, by omega, ?_⟩
          rw [pollLoopT_stepError r t0 n e h0 hle hr]
          simp [pollBlock]
        | .ok t1 =>
          obtain ⟨m, hm, htr⟩ := ih (n + 1) t1
            (by simp only [polling_interval_seconds, timeout_seconds] at hfuel ⊢
                omega)
          refine ⟨m + 1, by omega, ?_⟩
          rw [pollLoopT_step r t0 t1 n h0 hle hr]
          simp [pollBlock, List.replicate_succ, htr]
    · exact ⟨0, Nat.zero_le _, by rw [pollLoopT_notPending r t0 n h0]; rfl⟩

theorem timeout_message_literal :
    "Task timed out after " ++ toString timeout_seconds ++ " seconds." =
      "Task timed out after 120 seconds." := rfl

/-- Response mapping when the loop ends by timeout (`src/main.py` line
108). -/
theorem run_codegen_agent_timedOut (t0 t : Task)
    (r : Nat → Except String Task) (hp : pollLoop r t0 0 = .ok (.timedOut t)) :
    run_codegen_agent (.ok t0) r =
      .ok { status := "timeout", result := none,
            error := some "Task timed out after 120 seconds.",
            task_id := some (taskIdStr t) } := by
  simp [run_codegen_agent, hp, ← timeout_message_literal]

/-- Response mapping when the loop ends with a completed task
(`src/main.py` lines 126-128). -/
theorem run_codegen_agent_completed (t0 t : Task)
    (r : Nat → Except String Task) (hp : pollLoop r t0 0 = .ok (.exited t))
    (h : t.status = "completed") :
    run_codegen_agent (.ok t0) r =
      .ok { status := "completed", result := some (pyStr t.result),
            error := none, task_id := some (taskIdStr t) } := by
  simp [run_codegen_agent, hp, h]

/-- Response mapping when the loop ends with a failed task
(`src/main.py` lines 129-132). -/
theorem run_codegen_agent_failed (t0 t : Task)
    (r : Nat → Except String Task) (hp : pollLoop r t0 0 = .ok (.exited t))
    (h : t.status = "failed") :
    run_codegen_agent (.ok t0) r =
      .ok { status := "failed", result := none,
            error := some (t.error_message.getD "Codegen task failed."),
            task_id := some (taskIdStr t) } := by
  simp [run_codegen_agent, hp, h]

/-- Response mapping when the loop ends with a task in an arbitrary
non-terminal state (`src/main.py` lines 121-123). -/
theorem run_codegen_agent_active (t0 t : Task)
    (r : Nat → Except String Task) (hp : pollLoop r t0 0 = .ok (.exited t))
    (h : t.status ∉ (["pending", "completed", "failed"] : List String)) :
    run_codegen_agent (.ok t0) r =
      .ok { status := t.status,
            result := some ("Task ID: " ++ taskIdStr t ++ " is now active."),
            error := none, task_id := some (taskIdStr t) } := by
  simp [run_codegen_agent, hp, h]

/-- Entry-point form of `pollLoopT_notPending` for the outcome only. -/
theorem pollLoop_notPending (r : Nat → Except String Task) (t : Task)
    (h : t.status ≠ "pending") : pollLoop r t 0 = .ok (.exited t) := by
  simp [pollLoop, pollLoopT_notPending r t 0 h]

/-- Entry-point form of `pollLoopT_pending_exit` for the outcome only. -/
theorem pollLoop_exit0 (r : Nat → Except String Task) (k : Nat) (t0 t' : Task)
    (h0 : t0.status = "pending")
    (hpre : ∀ i, i < k → ∃ u, r i = .ok u ∧ u.status = "pending")
    (hb : polling_interval_seconds * k ≤ timeout_seconds)
    (hk : r k = .ok t') (ht' : t'.status ≠ "pending") :
    pollLoop r t0 0 = .ok (.exited t') := by
  have h := pollLoopT_pending_exit r k 0 t0 t' h0
    (fun i hi => by simpa using hpre i hi) (by simpa using hb)
    (by simpa using hk) ht'
  simp [pollLoop, h]

/-- Entry-point form of `pollLoopT_pending_error` for the outcome only. -/
theorem pollLoop_error0 (r : Nat → Except String Task) (k : Nat) (t0 : Task)
    (e : String) (h0 : t0.status = "pending")
    (hpre : ∀ i, i < k → ∃ u, r i = .ok u ∧ u.status = "pending")
    (hb : polling_interval_seconds * k ≤ timeout_seconds)
    (hk : r k = .error e) :
    pollLoop r t0 0 = .error e := by
  have h := pollLoopT_pending_error r k 0 t0 e h0
    (fun i hi => by simpa using hpre i hi) (by simpa using hb)
    (by simpa using hk)
  simp [pollLoop, h]

/-- C1: for every valid prompt, if the submitted task's status is
"completed" immediately after submit, or becomes "completed" on some
refresh during polling (within the timeout window), the handler returns a
`CodegenResponse` with status "completed", result equal to the
stringified task result, and error unset. -/
theorem C1_completed_yields_result (t0 : Task)
    (r : Nat → Except String Task) :
    (t0.status = "completed" →
      run_codegen_agent (.ok t0) r =
        .ok { status := "completed", result := some (pyStr t0.result),
              error := none, task_id := some (taskIdStr t0) }) ∧
    (∀ (k : Nat) (t' : Task), t0.status = "pending" →
      (∀ i, i < k → ∃ u, r i = .ok u ∧ u.status = "pending") →
      polling_interval_seconds * k ≤ timeout_seconds →
      r k = .ok t' → t'.status = "completed" →
      run_codegen_agent (.ok t0) r =
        .ok { status := "completed", result := some (pyStr t'.result),
              error := none, task_id := some (taskIdStr t') }) := by
  constructor
  · intro h
    exact run_codegen_agent_completed t0 t0 r
      (pollLoop_notPending r t0 (by rw [h]; decide)) h
  · intro k t' h0 hpre hb hk ht'
    exact run_codegen_agent_completed t0 t' r
      (pollLoop_exit0 r k t0 t' h0 hpre hb hk (by rw [ht']; decide)) ht'

/-- Witness for C1: a task completed immediately after submit, and a
pending task completed by the first refresh. -/
theorem C1_witness :
    (run_codegen_agent (.ok sampleDone) (refreshesTo sampleDone) =
      .ok { status := "completed", result := some (pyStr sampleDone.result),
            error := none, task_id := some (taskIdStr sampleDone) }) ∧
    (run_codegen_agent (.ok samplePending) (refreshesTo sampleDone) =
      .ok { status := "completed", result := some (pyStr sampleDone.result),
            error := none, task_id := some (taskIdStr sampleDone) }) :=
  ⟨(C1_completed_yields_result sampleDone (refreshesTo sampleDone)).1 rfl,
   (C1_completed_yields_result samplePending (refreshesTo sampleDone)).2
     0 sampleDone rfl (fun i hi => absurd hi (Nat.not_lt_zero i))
     (by decide) rfl rfl⟩

/-- C2: for every valid prompt, if the submitted task's status is
"failed" immediately after submit, or becomes "failed" on some refresh
during polling, the handler returns a `CodegenResponse` with status
"failed", error equal to the task's error message (or the fallback
literal "Codegen task failed." when the task exposes none), and result
unset. -/
theorem C2_failed_yields_error (t0 : Task)
    (r : Nat → Except String Task) :
    (t0.status = "failed" →
      run_codegen_agent (.ok t0) r =
        .ok { status := "failed", result := none,
              error := some (t0.error_message.getD "Codegen task failed."),
              task_id := some (taskIdStr t0) }) ∧
    (∀ (k : Nat) (t' : Task), t0.status = "pending" →
      (∀ i, i < k → ∃ u, r i = .ok u ∧ u.status = "pending") →
      polling_interval_seconds * k ≤ timeout_seconds →
      r k = .ok t' → t'.status = "failed" →
      run_codegen_agent (.ok t0) r =
        .ok { status := "failed", result := none,
              error := some (t'.error_message.getD "Codegen task failed."),
              task_id := some (taskIdStr t') }) := by
  constructor
  · intro h
    exact run_codegen_agent_failed t0 t0 r
      (pollLoop_notPending r t0 (by rw [h]; decide)) h
  · intro k t' h0 hpre hb hk ht'
    exact run_codegen_agent_failed t0 t' r
      (pollLoop_exit0 r k t0 t' h0 hpre hb hk (by rw [ht']; decide)) ht'

/-- Witness for C2: a task failed immediately after submit with an error
message, and a pending task failed by the first refresh with no
`error_message` attribute (fallback literal used). -/
theorem C2_witness :
    (run_codegen_agent (.ok sampleFailed) (refreshesTo sampleFailed) =
      .ok { status := "failed", result := none,
            error := some (sampleFailed.error_message.getD "Codegen task failed."),
            task_id := some (taskIdStr sampleFailed) }) ∧
    (run_codegen_agent (.ok samplePending) (refreshesTo sampleFailedBare) =
      .ok { status := "failed", result := none,
            error := some (sampleFailedBare.error_message.getD "Codegen task failed."),
            task_id := some (taskIdStr sampleFailedBare) }) :=
  ⟨(C2_failed_yields_error sampleFailed (refreshesTo sampleFailed)).1 rfl,
   (C2_failed_yields_error samplePending (refreshesTo sampleFailedBare)).2
     0 sampleFailedBare rfl (fun i hi => absurd hi (Nat.not_lt_zero i))
     (by decide) rfl rfl⟩

/-- C3: for every execution in which the task stays "pending" on every
refresh made within the 120-second timeout window, the handler returns a
`CodegenResponse` with status "timeout" and an error message naming the
120-second timeout duration; result is unset. -/
theorem C3_timeout_response (t0 : Task) (r : Nat → Except String Task)
    (h0 : t0.status = "pending")
    (hpend : ∀ i, polling_interval_seconds * i ≤ timeout_seconds →
      ∃ t, r i = .ok t ∧ t.status = "pending") :
    ∃ resp, run_codegen_agent (.ok t0) r = .ok resp ∧
      resp.status = "timeout" ∧ resp.result = none ∧
      resp.error = some "Task timed out after 120 seconds." := by
  obtain ⟨t, hp, _⟩ := pollLoopT_pending_forever r t0 h0 hpend
  exact ⟨_, run_codegen_agent_timedOut t0 t r hp, rfl, rfl, rfl⟩

/-- Witness for C3: a task that is pending forever times out. -/
theorem C3_witness :
    ∃ resp, run_codegen_agent (.ok samplePending)
        (refreshesTo samplePending) = .ok resp ∧
      resp.status = "timeout" ∧ resp.result = none ∧
      resp.error = some "Task timed out after 120 seconds." :=
  C3_timeout_response samplePending (refreshesTo samplePending) rfl
    (fun i _ => ⟨samplePending, rfl, rfl⟩)

theorem countP_join_replicate (p : Event → Bool) (m : Nat) (bl : List Event) :
    (List.join (List.replicate m bl)).countP p = m * bl.countP p := by
  induction m with
  | zero => simp
  | succ m ih =>
    simp [List.replicate_succ, List.countP_append, ih]
    ring

/-- C4: for every execution in which a refresh made before the timeout
moves the task's status from "pending" to a value other than "pending",
"completed" or "failed", the handler returns immediately a response whose
status is the raw task status and whose result is a non-error message
referencing the task id; the loop performs no further refresh calls in
that request (exactly k + 1 refresh events occur when the k-th refresh,
0-indexed, produced the active status). -/
theorem C4_active_early_return (t0 : Task) (r : Nat → Except String Task)
    (k : Nat) (t' : Task) (h0 : t0.status = "pending")
    (hpre : ∀ i, i < k → ∃ u, r i = .ok u ∧ u.status = "pending")
    (hb : polling_interval_seconds * k ≤ timeout_seconds)
    (hk : r k = .ok t')
    (ht : t'.status ∉ (["pending", "completed", "failed"] : List String)) :
    run_codegen_agent (.ok t0) r =
      .ok { status := t'.status,
            result := some ("Task ID: " ++ taskIdStr t' ++ " is now active."),
            error := none, task_id := some (taskIdStr t') } ∧
    ((pollLoopT r t0 0).1.countP Event.isRefresh) = k + 1 := by
  have hnp : t'.status ≠ "pending" := by
    intro h
    exact ht (by simp [h])
  have htr := pollLoopT_pending_exit r k 0 t0 t' h0
    (fun i hi => by simpa using hpre i hi) (by simpa using hb)
    (by simpa using hk) hnp
  constructor
  · exact run_codegen_agent_active t0 t' r (by simp [pollLoop, htr]) ht
  · rw [htr]
    simp [countP_join_replicate, pollBlock, List.countP_cons, Event.isRefresh]

/-- Witness for C4: the first refresh moves the task to "running". -/
theorem C4_witness :
    (run_codegen_agent (.ok samplePending) (refreshesTo sampleRunning) =
      .ok { status := sampleRunning.status,
            result := some ("Task ID: " ++ taskIdStr sampleRunning
              ++ " is now active."),
            error := none, task_id := some (taskIdStr sampleRunning) } ∧
     ((pollLoopT (refreshesTo sampleRunning) samplePending 0).1.countP
        Event.isRefresh) = 0 + 1) :=
  C4_active_early_return samplePending (refreshesTo sampleRunning) 0
    sampleRunning rfl (fun i hi => absurd hi (Nat.not_lt_zero i))
    (by decide) rfl (by decide)

/-- C5: in every execution of the polling loop, the effect trace consists
of m complete iterations (m at most 41), each a sleep of the 3-second
polling interval immediately followed by one refresh call made while the
status is "pending". Hence every refresh call is preceded by a 3-second
sleep (refresh is never called more often than once per 3 simulated
seconds), refresh is only called while the status is "pending", and the
i-th refresh call (i < m ≤ 41) happens with elapsed time 3 * i ≤ 120 at
its loop-head check. -/
theorem C5_polling_cadence (r : Nat → Except String Task) (t0 : Task) :
    ∃ m, m ≤ 41 ∧
      (pollLoopT r t0 0).1 =
        List.join (List.replicate m
          [Event.sleep polling_interval_seconds,
           Event.refreshCall "pending"]) :=
  pollLoopT_trace_aux r 41 0 t0 (by decide)

/-- C6: the credential gate succeeds exactly when the scheme equals
"Bearer" (case-sensitive) and the credential equals the configured secret
by exact string match; a wrong scheme is rejected with 403 and a correct
scheme with a wrong credential with 401 — in both cases for every
possible submit/refresh behaviour, i.e. before any remote call is made. -/
theorem C6_credential_gate (scheme credential key : String) :
    ((∃ x, verify_api_key scheme credential key = .ok x) ↔
      (scheme = "Bearer" ∧ credential = key)) ∧
    (scheme ≠ "Bearer" →
      ∀ (submit : Except String Task) (refreshes : Nat → Except String Task),
        handle_request scheme credential key submit refreshes =
          .httpError 403 "Invalid authentication scheme") ∧
    (scheme = "Bearer" → credential ≠ key →
      ∀ (submit : Except String Task) (refreshes : Nat → Except String Task),
        handle_request scheme credential key submit refreshes =
          .httpError 401 "Invalid API Key") := by
  refine ⟨⟨?_, ?_⟩, ?_, ?_⟩
  · rintro ⟨x, hx⟩
    by_cases hs : scheme = "Bearer"
    · by_cases hc : credential = key
      · exact ⟨hs, hc⟩
      · simp [verify_api_key, hs, hc] at hx
    · simp [verify_api_key, hs] at hx
  · rintro ⟨hs, hc⟩
    exact ⟨credential, by simp [verify_api_key, hs, hc]⟩
  · intro hs submit refreshes
    simp [handle_request, verify_api_key, hs]
  · intro hs hc submit refreshes
    simp [handle_request, verify_api_key, hs, hc]

/-- Witness for C6: `Basic xyz` is rejected 403, `Bearer wrong-token` is
rejected 401, and the correct bearer credential is accepted. -/
theorem C6_witness :
    (handle_request "Basic" "xyz" "secret-token" (.ok sampleDone)
        (refreshesTo sampleDone) =
      .httpError 403 "Invalid authentication scheme") ∧
    (handle_request "Bearer" "wrong-token" "secret-token" (.ok sampleDone)
        (refreshesTo sampleDone) =
      .httpError 401 "Invalid API Key") ∧
    (∃ x, verify_api_key "Bearer" "secret-token" "secret-token" = .ok x) :=
  ⟨(C6_credential_gate "Basic" "xyz" "secret-token").2.1 (by decide) _ _,
   (C6_credential_gate "Bearer" "wrong-token" "secret-token").2.2 rfl
     (by decide) _ _,
   (C6_credential_gate "Bearer" "secret-token" "secret-token").1.mpr
     ⟨rfl, rfl⟩⟩

/-- C7: a submit exception yields a 500 whose detail contains the failure
text, independently of any refresh behaviour (the poller never runs); a
refresh exception during polling likewise aborts the request with a 500
carrying the failure text — a single raised failure terminates the whole
request, with no retry. -/
theorem C7_exceptions_give_500 (e : String) :
    (∀ (refreshes : Nat → Except String Task),
      run_codegen_agent (.error e) refreshes =
        .httpError 500 ("An internal error occurred: " ++ e)) ∧
    (∀ (t0 : Task) (r : Nat → Except String Task) (k : Nat),
      t0.status = "pending" →
      (∀ i, i < k → ∃ u, r i = .ok u ∧ u.status = "pending") →
      polling_interval_seconds * k ≤ timeout_seconds →
      r k = .error e →
      run_codegen_agent (.ok t0) r =
        .httpError 500 ("An internal error occurred: " ++ e)) := by
  constructor
  · intro refreshes
    rfl
  · intro t0 r k h0 hpre hb hk
    have hp := pollLoop_error0 r k t0 e h0 hpre hb hk
    simp [run_codegen_agent, hp]

/-- Witness for C7: submit raising, and the first refresh raising. -/
theorem C7_witness :
    (run_codegen_agent (.error "ConnectionError") (refreshesTo sampleDone) =
      .httpError 500 ("An internal error occurred: " ++ "ConnectionError")) ∧
    (run_codegen_agent (.ok samplePending) (refreshesRaise "ReadTimeout") =
      .httpError 500 ("An internal error occurred: " ++ "ReadTimeout")) :=
  ⟨(C7_exceptions_give_500 "ConnectionError").1 _,
   (C7_exceptions_give_500 "ReadTimeout").2 samplePending
     (refreshesRaise "ReadTimeout") 0 rfl
     (fun i hi => absurd hi (Nat.not_lt_zero i)) (by decide) rfl⟩

/-- C8: every `CodegenResponse` the handler returns has its (required,
hence always populated) status field and at most one of result/error
set. -/
theorem C8_at_most_one_payload (submit : Except String Task)
    (r : Nat → Except String Task) (resp : CodegenResponse)
    (h : run_codegen_agent submit r = .ok resp) :
    resp.result = none ∨ resp.error = none := by
  unfold run_codegen_agent at h
  repeat' split at h
  all_goals try (exact HandlerResult.noConfusion h)
  all_goals injection h with h2
  all_goals subst h2
  all_goals simp

/-- Witness for C8: the response of a completed run. -/
theorem C8_witness :
    ({ status := "completed", result := some (pyStr sampleDone.result),
       error := none,
       task_id := some (taskIdStr sampleDone) } : CodegenResponse).result
        = none ∨
    ({ status := "completed", result := some (pyStr sampleDone.result),
       error := none,
       task_id := some (taskIdStr sampleDone) } : CodegenResponse).error
        = none :=
  C8_at_most_one_payload (.ok sampleDone) (refreshesTo sampleDone) _
    (run_codegen_agent_completed sampleDone sampleDone (refreshesTo sampleDone)
      (pollLoop_notPending _ sampleDone (by decide)) rfl)

/-- Unreachable fall-through of the Python handler: the loop can only be
exited with a non-pending task, but if it were exited pending, the
function body would end without a `return` and yield `None`. -/
theorem run_codegen_agent_stuckPending (t0 t : Task)
    (r : Nat → Except String Task) (hp : pollLoop r t0 0 = .ok (.exited t))
    (h : t.status = "pending") :
    run_codegen_agent (.ok t0) r = .invalidNone := by
  simp [run_codegen_agent, hp, h]

/-- C9: in every response the handler returns, task_id is the stringified
id of the task the loop ended with, defaulting to the sentinel literal
"N/A" when the task has no observable identifier. -/
theorem C9_task_id_field (t0 : Task) (r : Nat → Except String Task)
    (res : PollResult) (resp : CodegenResponse)
    (hp : pollLoop r t0 0 = .ok res)
    (h : run_codegen_agent (.ok t0) r = .ok resp) :
    resp.task_id = some (taskIdStr res.task) ∧
    (res.task.id = none → resp.task_id = some "N/A") := by
  have main : resp.task_id = some (taskIdStr res.task) := by
    cases res with
    | timedOut t =>
      rw [run_codegen_agent_timedOut t0 t r hp] at h
      injection h with h2
      subst h2
      rfl
    | exited t =>
      by_cases h1 : t.status ∉ (["pending", "completed", "failed"] : List String)
      · rw [run_codegen_agent_active t0 t r hp h1] at h
        injection h with h2
        subst h2
        rfl
      · by_cases h2 : t.status = "completed"
        · rw [run_codegen_agent_completed t0 t r hp h2] at h
          injection h with h2
          subst h2
          rfl
        · by_cases h3 : t.status = "failed"
          · rw [run_codegen_agent_failed t0 t r hp h3] at h
            injection h with h2
            subst h2
            rfl
          · have h4 : t.status = "pending" := by
              simp only [List.mem_cons, List.mem_singleton, not_not] at h1
              rcases h1 with h1 | h1 | h1 | h1
              · exact h1
              · exact absurd h1 h2
              · exact absurd h1 h3
              · exact absurd h1 (List.not_mem_nil _)
            rw [run_codegen_agent_stuckPending t0 t r hp h4] at h
            exact absurd h (by simp)
  exact ⟨main, fun hid => by simpa [taskIdStr, hid] using main⟩

/-- Witness for C9: a completed run whose task carries id "42". -/
theorem C9_witness :
    (({ status := "completed", result := some (pyStr sampleDone.result),
        error := none,
        task_id := some (taskIdStr sampleDone) } : CodegenResponse).task_id =
      some (taskIdStr (PollResult.exited sampleDone).task)) ∧
    ((PollResult.exited sampleDone).task.id = none →
      ({ status := "completed", result := some (pyStr sampleDone.result),
         error := none,
         task_id := some (taskIdStr sampleDone) } : CodegenResponse).task_id =
        some "N/A") :=
  C9_task_id_field sampleDone (refreshesTo sampleDone) (.exited sampleDone) _
    (pollLoop_notPending _ sampleDone (by decide))
    (run_codegen_agent_completed sampleDone sampleDone (refreshesTo sampleDone)
      (pollLoop_notPending _ sampleDone (by decide)) rfl)

/-- C10: the scheme check precedes the credential check: when the scheme
is not "Bearer" and the credential also differs from the secret, the
rejection is the 403 invalid-scheme error — never the 401
invalid-credential error — regardless of submit/refresh behaviour. -/
theorem C10_scheme_checked_first (scheme credential key : String)
    (hs : scheme ≠ "Bearer") (hc : credential ≠ key) :
    verify_api_key scheme credential key =
      .error (403, "Invalid authentication scheme") ∧
    verify_api_key scheme credential key ≠
      .error (401, "Invalid API Key") ∧
    ∀ (submit : Except String Task) (refreshes : Nat → Except String Task),
      handle_request scheme credential key submit refreshes =
        .httpError 403 "Invalid authentication scheme" := by
  refine ⟨by simp [verify_api_key, hs], ?_, ?_⟩
  · simp [verify_api_key, hs]
  · intro submit refreshes
    simp [handle_request, verify_api_key, hs]

/-- Witness for C10: wrong scheme and wrong credential together. -/
theorem C10_witness :
    (verify_api_key "Basic" "wrong-token" "secret-token" =
      .error (403, "Invalid authentication scheme") ∧
    verify_api_key "Basic" "wrong-token" "secret-token" ≠
      .error (401, "Invalid API Key") ∧
    ∀ (submit : Except String Task) (refreshes : Nat → Except String Task),
      handle_request "Basic" "wrong-token" "secret-token" submit refreshes =
        .httpError 403 "Invalid authentication scheme") :=
  C10_scheme_checked_first "Basic" "wrong-token" "secret-token"
    (by decide) (by decide)

end CodegenAPI
